import Mathlib

/-!
Shallow embedding of `src/file_monitor.py` (Telegram-File-Monitor).

The program is a single-threaded polling loop. We embed its pure control
logic directly. Network effects are passed in as explicit oracle values:
each HTTP request's outcome is an `Except Unit HttpResponse` (`.error` is a
transport-level failure, i.e. a `requests.RequestException`), and the
filesystem of the download directory is a `List String` of file names.
Performed network calls are made observable through an explicit `Event`
trace.

Machine integers are modelled as `Int` (Python ints are unbounded, so no
wrap-around is involved); counters that the code only ever increments by
non-negative amounts are `Nat`.
-/

/-- Configuration values loaded from the environment at startup
(`START_INDEX`, `END_INDEX`, `SUPPORTED_EXTENSIONS`, and the fixed
`BASE_URL` built from `MONITOR_TOKEN`). -/
structure Config where
  base_url : String
  START_INDEX : Int
  END_INDEX : Int
  SUPPORTED_EXTENSIONS : List String
deriving Repr, DecidableEq

/-- An HTTP response as the code observes it: `response.status_code` and the
optional `content-length` header (absent means `headers.get` falls back). -/
structure HttpResponse where
  status : Nat
  content_length : Option Nat
deriving Repr, DecidableEq

/-- Observable network calls made while processing one candidate. -/
inductive Event where
  | probe (url : String)
  | download (url : String)
deriving Repr, DecidableEq

/-- The `StatusReporter` object: cumulative counters, the last-check
timestamp (modelled only as present/absent), and the mirrored scan index.
The wall-clock `start_time` field plays no role in any claim and is
omitted. -/
structure StatusReporter where
  files_found : Nat
  files_downloaded : Nat
  last_check_time : Option Unit
  current_index : Int
  checks_performed : Nat
deriving Repr, DecidableEq

/-- `StatusReporter.__init__`: all counters zero, no check performed yet. -/
def StatusReporter.init : StatusReporter :=
  { files_found := 0, files_downloaded := 0, last_check_time := none,
    current_index := 0, checks_performed := 0 }

/-- `StatusReporter.update_stats`: add both counts, stamp the last-check
time, increment the check counter. -/
def update_stats (r : StatusReporter) (files_found files_downloaded : Nat) :
    StatusReporter :=
  { r with
    files_found := r.files_found + files_found,
    files_downloaded := r.files_downloaded + files_downloaded,
    last_check_time := some (),
    checks_performed := r.checks_performed + 1 }

/-- Iterated `update_stats`: apply a whole list of `(found, downloaded)`
recordings in order. -/
def record_all (r : StatusReporter) : List (Nat × Nat) → StatusReporter
  | [] => r
  | (f, d) :: rest => record_all (update_stats r f d) rest

/-- The candidate file name `f"file_{index}.{ext}"`. -/
def mkFilename (index : Int) (ext : String) : String :=
  "file_" ++ toString index ++ "." ++ ext

/-- The candidate URL `f"{BASE_URL}/{filename}"` (the code inserts an extra
slash after the base URL; we reproduce it verbatim). -/
def mkUrl (base_url : String) (index : Int) (ext : String) : String :=
  base_url ++ "/" ++ mkFilename index ext

/-- `FileMonitor.check_file_exists`: a `HEAD` probe. Status 200 yields
`(True, content_length or 0)`; any other status yields `(False, 0)`; a
transport failure is caught and yields `(False, 0)`. Total by construction:
nothing propagates to the caller. -/
def check_file_exists (resp : Except Unit HttpResponse) : Bool × Nat :=
  match resp with
  | Except.ok r =>
      if r.status = 200 then (true, r.content_length.getD 0)
      else (false, 0)
  | Except.error _ => (false, 0)

/-- Whether `check_file_exists` logs an error for this probe outcome (it
does exactly on the transport-failure path). -/
def check_file_exists_logs_error (resp : Except Unit HttpResponse) : Bool :=
  match resp with
  | Except.ok _ => false
  | Except.error _ => true

/-- Outcome of `send_telegram_message`: how many HTTP posts were attempted
and whether an error was logged. The function itself is total: it never
raises to its caller. -/
structure SendOutcome where
  network_calls : Nat
  error_logged : Bool
deriving Repr, DecidableEq

/-- `send_telegram_message`: with `CHAT_ID` falsy (unset defaults to 0, so
falsy means 0) it logs an error and returns without any network call;
otherwise it posts once, catching and logging any transport failure. -/
def send_telegram_message (chat_id : Int) (transport : Except Unit Unit) :
    SendOutcome :=
  if chat_id = 0 then
    { network_calls := 0, error_logged := true }
  else
    match transport with
    | Except.ok _ => { network_calls := 1, error_logged := false }
    | Except.error _ => { network_calls := 1, error_logged := true }

/-- Candidate file name tried by the collision loop at counter `k`:
`f"{base_name}_{counter}{ext}"`. -/
def candName (base ext : String) (k : Nat) : String :=
  base ++ "_" ++ Nat.repr k ++ ext

/-- The candidate sequence the collision loop walks: position 0 is the
originally requested path, position `j + 1` is `candName` at counter
`counter + j`. -/
def candAt (base ext path : String) (counter : Nat) : Nat → String
  | 0 => path
  | Nat.succ j => candName base ext (counter + j)

/-- The `while os.path.exists(final_path)` collision loop of
`FileMonitor.download_file`, with explicit fuel (the Python loop terminates
because the directory is finite; `download_file` passes fuel
`dir.length + 1`, enough candidates that one must be free). -/
def resolve_path (dir : List String) (base ext : String) :
    String → Nat → Nat → Option String
  | _, _, 0 => none
  | path, counter, Nat.succ fuel =>
      if path ∈ dir then
        resolve_path dir base ext (candName base ext counter) (counter + 1) fuel
      else some path

/-- `os.path.splitext` for plain file names (no directory separators): split
at the last dot, unless every character before it is itself a dot. -/
def splitext (s : String) : String × String :=
  let cs := s.data
  match cs.reverse.findIdx? (fun c => c = '.') with
  | none => (s, "")
  | some r =>
      let d := cs.length - 1 - r
      if (cs.take d).any (fun c => ¬ c = '.') then
        (String.mk (cs.take d), String.mk (cs.drop d))
      else (s, "")

/-- `FileMonitor.download_file`, restricted to its observable effect on the
download directory: on a 200 response it resolves a collision-free path and
writes the body there (the new directory listing gains exactly that path),
returning `True`; on any other status, or a caught transport failure, it
returns `False` and writes nothing. -/
def download_file (dir : List String) (filename : String)
    (resp : Except Unit HttpResponse) : Bool × List String :=
  match resp with
  | Except.error _ => (false, dir)
  | Except.ok r =>
      if r.status = 200 then
        match splitext filename with
        | (base, ext) =>
            match resolve_path dir base ext filename 1 (dir.length + 1) with
            | some p => (true, p :: dir)
            | none => (false, dir)
      else (false, dir)

/-- Oracle for one candidate inside `FileMonitor.process_file`: the outcome
of the existence probe, and the outcome of `download_file` if it is invoked
(`Except.ok b` means `download_file` returned `b`; `Except.error` means an
unexpected exception was raised inside the `try` block — e.g. a filesystem
error that `download_file`'s requests-only handler does not catch). -/
structure FileEnv where
  probe : Except Unit HttpResponse
  download : Except Unit Bool
deriving Repr

/-- Result of `FileMonitor.process_file`: the returned
`(file_found, file_downloaded)` pair, the seen-set (`self.found_files`)
after the call, and the network calls performed. -/
structure ProcResult where
  found : Bool
  downloaded : Bool
  seen : List String
  events : List Event
deriving Repr, DecidableEq

/-- `FileMonitor.process_file`: a URL already in the seen-set returns
`(False, False)` at once, with no network call. Otherwise the existence
probe runs; on existence the download runs, and only a successful download
adds the URL to the seen-set and returns `(True, True)`; a failed download
returns `(True, False)`; an unexpected exception is caught and yields
`(False, False)`; a missing file yields `(False, False)`. -/
def process_file (base_url : String) (seen : List String) (index : Int)
    (ext : String) (env : FileEnv) : ProcResult :=
  let url := mkUrl base_url index ext
  if url ∈ seen then
    { found := false, downloaded := false, seen := seen, events := [] }
  else
    if (check_file_exists env.probe).1 then
      match env.download with
      | Except.ok true =>
          { found := true, downloaded := true, seen := url :: seen,
            events := [Event.probe url, Event.download url] }
      | Except.ok false =>
          { found := true, downloaded := false, seen := seen,
            events := [Event.probe url, Event.download url] }
      | Except.error _ =>
          { found := false, downloaded := false, seen := seen,
            events := [Event.probe url, Event.download url] }
    else
      { found := false, downloaded := false, seen := seen,
        events := [Event.probe url] }

/-- Aggregate result of processing every extension at one index: the pass
counters so far, the seen-set, and the accumulated network trace. -/
structure ExtsResult where
  found : Nat
  downloaded : Nat
  seen : List String
  events : List Event
deriving Repr, DecidableEq

/-- The inner `for ext in SUPPORTED_EXTENSIONS` loop of
`check_new_files`: process every extension at one index, threading the
seen-set and accumulating the pass counters (`files_found` counts `found`
candidates, `files_downloaded` counts those also `downloaded`). -/
def processExts (base_url : String) (env : Int → String → FileEnv)
    (idx : Int) :
    List String → List String → Nat → Nat → List Event → ExtsResult
  | [], seen, f, d, evs => { found := f, downloaded := d, seen := seen, events := evs }
  | ext :: rest, seen, f, d, evs =>
      let r := process_file base_url seen idx ext (env idx ext)
      let f2 := if r.found then f + 1 else f
      let d2 := if r.found then (if r.downloaded then d + 1 else d) else d
      processExts base_url env idx rest r.seen f2 d2 (evs ++ r.events)

/-- Result of one whole scan pass (`check_new_files`'s `while` loop): the
cursor after the pass, the seen-set, the pass's aggregate counts, the list
of cursor values at which candidate checks ran, and the network trace. -/
structure ScanResult where
  cursor : Int
  seen : List String
  found : Nat
  downloaded : Nat
  visited : List Int
  events : List Event
deriving Repr, DecidableEq

/-- The `while self.current_index <= END_INDEX` loop of `check_new_files`,
with explicit fuel. The cursor strictly increases each iteration, so the
loop runs at most `(END_INDEX + 1 - idx).toNat` times; `scanLoop` enters
with exactly that fuel, which makes the fuel-exhausted fallback coincide
with the loop-condition-false exit. After processing an index the cursor is
incremented, and if it now exceeds `END_INDEX` it is reset to
`START_INDEX` and the pass breaks out of the loop. -/
def scanLoopAux (cfg : Config) (env : Int → String → FileEnv) :
    Nat → Int → List String → Nat → Nat → List Int → List Event → ScanResult
  | 0, idx, seen, ff, fd, vis, evs =>
      { cursor := idx, seen := seen, found := ff, downloaded := fd,
        visited := vis, events := evs }
  | Nat.succ fuel, idx, seen, ff, fd, vis, evs =>
      if idx ≤ cfg.END_INDEX then
        let r := processExts cfg.base_url env idx cfg.SUPPORTED_EXTENSIONS seen 0 0 []
        if cfg.END_INDEX < idx + 1 then
          { cursor := cfg.START_INDEX, seen := r.seen, found := ff + r.found,
            downloaded := fd + r.downloaded, visited := vis ++ [idx],
            events := evs ++ r.events }
        else
          scanLoopAux cfg env fuel (idx + 1) r.seen (ff + r.found)
            (fd + r.downloaded) (vis ++ [idx]) (evs ++ r.events)
      else
        { cursor := idx, seen := seen, found := ff, downloaded := fd,
          visited := vis, events := evs }

/-- One scan pass starting at cursor `idx` with seen-set `seen`. -/
def scanLoop (cfg : Config) (env : Int → String → FileEnv) (idx : Int)
    (seen : List String) : ScanResult :=
  scanLoopAux cfg env (cfg.END_INDEX + 1 - idx).toNat idx seen 0 0 [] []

/-- The `FileMonitor` object's state: scan cursor, seen-set, reporter. -/
structure FileMonitor where
  current_index : Int
  found_files : List String
  status_reporter : StatusReporter
deriving Repr, DecidableEq

/-- `FileMonitor.__init__`: the cursor starts at the literal 0 (not at
`START_INDEX`), the seen-set starts empty, the reporter fresh. -/
def FileMonitor.init : FileMonitor :=
  { current_index := 0, found_files := [], status_reporter := StatusReporter.init }

/-- `FileMonitor.check_new_files`: run one scan pass from the current
cursor, then call `update_stats` exactly once with the pass's aggregate
counts and mirror the new cursor into the reporter. -/
def check_new_files (cfg : Config) (env : Int → String → FileEnv)
    (m : FileMonitor) : FileMonitor :=
  let r := scanLoop cfg env m.current_index m.found_files
  { current_index := r.cursor, found_files := r.seen,
    status_reporter :=
      { update_stats m.status_reporter r.found r.downloaded with
        current_index := r.cursor } }

/-- Concrete configuration for the end-to-end pass: start 0, end 2, one
extension, short base URL. -/
def cfgC7 : Config :=
  { base_url := "B", START_INDEX := 0, END_INDEX := 2,
    SUPPORTED_EXTENSIONS := ["txt"] }

/-- Concrete remote for the end-to-end pass: `file_1.txt` exists (status
200, 1048576 bytes) and downloads successfully; nothing else exists. -/
def envC7 : Int → String → FileEnv := fun i ext =>
  if i = 1 ∧ ext = "txt" then
    { probe := Except.ok { status := 200, content_length := some 1048576 },
      download := Except.ok true }
  else
    { probe := Except.ok { status := 404, content_length := none },
      download := Except.ok false }

/-- Configuration with a strictly positive start index, permitted by
`validate_config` (it requires only `START_INDEX ≤ END_INDEX`). -/
def cfgC1 : Config :=
  { base_url := "B", START_INDEX := 5, END_INDEX := 6,
    SUPPORTED_EXTENSIONS := ["txt"] }

/-- Remote on which no candidate exists. -/
def envNone : Int → String → FileEnv := fun _ _ =>
  { probe := Except.ok { status := 404, content_length := none },
    download := Except.ok false }

/-! ## Helper lemmas -/

/-- Unfolding equation: empty extension list. -/
lemma processExts_nil (base_url : String) (env : Int → String → FileEnv)
    (idx : Int) (seen : List String) (f d : Nat) (evs : List Event) :
    processExts base_url env idx [] seen f d evs =
      { found := f, downloaded := d, seen := seen, events := evs } := rfl

/-- Unfolding equation: one extension step. -/
lemma processExts_cons (base_url : String) (env : Int → String → FileEnv)
    (idx : Int) (ext : String) (rest : List String) (seen : List String)
    (f d : Nat) (evs : List Event) :
    processExts base_url env idx (ext :: rest) seen f d evs =
      processExts base_url env idx rest
        (process_file base_url seen idx ext (env idx ext)).seen
        (if (process_file base_url seen idx ext (env idx ext)).found then f + 1 else f)
        (if (process_file base_url seen idx ext (env idx ext)).found then
          (if (process_file base_url seen idx ext (env idx ext)).downloaded then d + 1 else d)
         else d)
        (evs ++ (process_file base_url seen idx ext (env idx ext)).events) := rfl

/-- Case enumeration for `process_file`: the result is one of
"nothing found, seen-set unchanged", "found but not downloaded, seen-set
unchanged", or "found and downloaded with a successful `download_file`,
URL prepended to the seen-set". -/
lemma process_file_spec (base_url : String) (seen : List String) (index : Int)
    (ext : String) (env : FileEnv) :
    ((process_file base_url seen index ext env).found = false ∧
      (process_file base_url seen index ext env).downloaded = false ∧
      (process_file base_url seen index ext env).seen = seen) ∨
    ((process_file base_url seen index ext env).found = true ∧
      (process_file base_url seen index ext env).downloaded = false ∧
      (process_file base_url seen index ext env).seen = seen) ∨
    ((process_file base_url seen index ext env).found = true ∧
      (process_file base_url seen index ext env).downloaded = true ∧
      (process_file base_url seen index ext env).seen = mkUrl base_url index ext :: seen ∧
      env.download = Except.ok true) := by
  unfold process_file
  by_cases hmem : mkUrl base_url index ext ∈ seen
  · simp [hmem]
  · by_cases hp : (check_file_exists env.probe).1 = true
    · rcases hd : env.download with u | b
      · simp [hmem, hp, hd]
      · rcases b with _ | _
        · simp [hmem, hp, hd]
        · simp [hmem, hp, hd]
    · simp [hmem, hp]

/-- The seen-set never shrinks across `process_file`. -/
lemma process_file_seen_mono (base_url : String) (seen : List String)
    (index : Int) (ext : String) (env : FileEnv) :
    seen ⊆ (process_file base_url seen index ext env).seen := by
  rcases process_file_spec base_url seen index ext env with h | h | h
  · rw [h.2.2]
    exact fun _ hx => hx
  · rw [h.2.2]
    exact fun _ hx => hx
  · rw [h.2.2.1]
    exact fun x hx => List.mem_cons_of_mem _ hx

/-- Accumulator facts for the extension loop: counters only grow, each
pass's downloaded increment never exceeds its found increment, and the
seen-set only grows. -/
lemma processExts_spec (base_url : String) (env : Int → String → FileEnv)
    (idx : Int) :
    ∀ (exts : List String) (seen : List String) (f d : Nat) (evs : List Event),
      f ≤ (processExts base_url env idx exts seen f d evs).found ∧
      d ≤ (processExts base_url env idx exts seen f d evs).downloaded ∧
      (processExts base_url env idx exts seen f d evs).downloaded + f ≤
        (processExts base_url env idx exts seen f d evs).found + d ∧
      seen ⊆ (processExts base_url env idx exts seen f d evs).seen := by
  intro exts
  induction exts with
  | nil =>
      intro seen f d evs
      refine ⟨le_refl f, le_refl d, ?_, fun _ hx => hx⟩
      simp only [processExts_nil]
      omega
  | cons ext rest ih =>
      intro seen f d evs
      rw [processExts_cons]
      have hpf := process_file_seen_mono base_url seen idx ext (env idx ext)
      rcases hf : (process_file base_url seen idx ext (env idx ext)).found with _ | _
      · simp only [hf, Bool.false_eq_true, if_false]
        obtain ⟨h1, h2, h3, h4⟩ := ih (process_file base_url seen idx ext (env idx ext)).seen
          f d (evs ++ (process_file base_url seen idx ext (env idx ext)).events)
        exact ⟨h1, h2, h3, fun x hx => h4 (hpf hx)⟩
      · rcases hdow : (process_file base_url seen idx ext (env idx ext)).downloaded with _ | _
        · simp only [hf, hdow, if_true, Bool.false_eq_true, if_false]
          obtain ⟨h1, h2, h3, h4⟩ := ih (process_file base_url seen idx ext (env idx ext)).seen
            (f + 1) d (evs ++ (process_file base_url seen idx ext (env idx ext)).events)
          exact ⟨by omega, h2, by omega, fun x hx => h4 (hpf hx)⟩
        · simp only [hf, hdow, if_true]
          obtain ⟨h1, h2, h3, h4⟩ := ih (process_file base_url seen idx ext (env idx ext)).seen
            (f + 1) (d + 1) (evs ++ (process_file base_url seen idx ext (env idx ext)).events)
          exact ⟨by omega, by omega, by omega, fun x hx => h4 (hpf hx)⟩

/-- Unfolding equation: fuel exhausted. -/
lemma scanLoopAux_zero (cfg : Config) (env : Int → String → FileEnv)
    (idx : Int) (seen : List String) (ff fd : Nat) (vis : List Int)
    (evs : List Event) :
    scanLoopAux cfg env 0 idx seen ff fd vis evs =
      { cursor := idx, seen := seen, found := ff, downloaded := fd,
        visited := vis, events := evs } := rfl

/-- Unfolding equation: final index of the range, wrap and break. -/
lemma scanLoopAux_succ_wrap (cfg : Config) (env : Int → String → FileEnv)
    (n : Nat) (idx : Int) (seen : List String) (ff fd : Nat) (vis : List Int)
    (evs : List Event) (h1 : idx ≤ cfg.END_INDEX)
    (h2 : cfg.END_INDEX < idx + 1) :
    scanLoopAux cfg env (n + 1) idx seen ff fd vis evs =
      { cursor := cfg.START_INDEX,
        seen := (processExts cfg.base_url env idx cfg.SUPPORTED_EXTENSIONS seen 0 0 []).seen,
        found := ff + (processExts cfg.base_url env idx cfg.SUPPORTED_EXTENSIONS seen 0 0 []).found,
        downloaded := fd + (processExts cfg.base_url env idx cfg.SUPPORTED_EXTENSIONS seen 0 0 []).downloaded,
        visited := vis ++ [idx],
        events := evs ++ (processExts cfg.base_url env idx cfg.SUPPORTED_EXTENSIONS seen 0 0 []).events } := by
  simp [scanLoopAux, h1, h2]

/-- Unfolding equation: interior index of the range, continue the loop. -/
lemma scanLoopAux_succ_step (cfg : Config) (env : Int → String → FileEnv)
    (n : Nat) (idx : Int) (seen : List String) (ff fd : Nat) (vis : List Int)
    (evs : List Event) (h1 : idx ≤ cfg.END_INDEX)
    (h2 : ¬ cfg.END_INDEX < idx + 1) :
    scanLoopAux cfg env (n + 1) idx seen ff fd vis evs =
      scanLoopAux cfg env n (idx + 1)
        (processExts cfg.base_url env idx cfg.SUPPORTED_EXTENSIONS seen 0 0 []).seen
        (ff + (processExts cfg.base_url env idx cfg.SUPPORTED_EXTENSIONS seen 0 0 []).found)
        (fd + (processExts cfg.base_url env idx cfg.SUPPORTED_EXTENSIONS seen 0 0 []).downloaded)
        (vis ++ [idx])
        (evs ++ (processExts cfg.base_url env idx cfg.SUPPORTED_EXTENSIONS seen 0 0 []).events) := by
  simp [scanLoopAux, h1, h2]

/-- Unfolding equation: cursor already past the end, loop body never runs. -/
lemma scanLoopAux_succ_done (cfg : Config) (env : Int → String → FileEnv)
    (n : Nat) (idx : Int) (seen : List String) (ff fd : Nat) (vis : List Int)
    (evs : List Event) (h1 : ¬ idx ≤ cfg.END_INDEX) :
    scanLoopAux cfg env (n + 1) idx seen ff fd vis evs =
      { cursor := idx, seen := seen, found := ff, downloaded := fd,
        visited := vis, events := evs } := by
  simp [scanLoopAux, h1]

/-- The seen-set never shrinks across a scan pass. -/
lemma scanLoopAux_seen_mono (cfg : Config) (env : Int → String → FileEnv) :
    ∀ (n : Nat) (idx : Int) (seen : List String) (ff fd : Nat)
      (vis : List Int) (evs : List Event),
      seen ⊆ (scanLoopAux cfg env n idx seen ff fd vis evs).seen := by
  intro n
  induction n with
  | zero =>
      intro idx seen ff fd vis evs
      rw [scanLoopAux_zero]
      exact fun _ hx => hx
  | succ n ih =>
      intro idx seen ff fd vis evs
      by_cases h1 : idx ≤ cfg.END_INDEX
      · have hm := (processExts_spec cfg.base_url env idx
          cfg.SUPPORTED_EXTENSIONS seen 0 0 []).2.2.2
        by_cases h2 : cfg.END_INDEX < idx + 1
        · rw [scanLoopAux_succ_wrap cfg env n idx seen ff fd vis evs h1 h2]
          exact hm
        · rw [scanLoopAux_succ_step cfg env n idx seen ff fd vis evs h1 h2]
          exact fun x hx => ih (idx + 1) _ _ _ _ _ (hm hx)
      · rw [scanLoopAux_succ_done cfg env n idx seen ff fd vis evs h1]
        exact fun _ hx => hx

/-- The pass's downloaded count never exceeds its found count (invariant on
the accumulators). -/
lemma scanLoopAux_counts (cfg : Config) (env : Int → String → FileEnv) :
    ∀ (n : Nat) (idx : Int) (seen : List String) (ff fd : Nat)
      (vis : List Int) (evs : List Event), fd ≤ ff →
      (scanLoopAux cfg env n idx seen ff fd vis evs).downloaded ≤
        (scanLoopAux cfg env n idx seen ff fd vis evs).found := by
  intro n
  induction n with
  | zero =>
      intro idx seen ff fd vis evs hle
      rw [scanLoopAux_zero]
      exact hle
  | succ n ih =>
      intro idx seen ff fd vis evs hle
      by_cases h1 : idx ≤ cfg.END_INDEX
      · have hc := (processExts_spec cfg.base_url env idx
          cfg.SUPPORTED_EXTENSIONS seen 0 0 []).2.2.1
        by_cases h2 : cfg.END_INDEX < idx + 1
        · rw [scanLoopAux_succ_wrap cfg env n idx seen ff fd vis evs h1 h2]
          simp only
          omega
        · rw [scanLoopAux_succ_step cfg env n idx seen ff fd vis evs h1 h2]
          exact ih (idx + 1) _ _ _ _ _ (by omega)
      · rw [scanLoopAux_succ_done cfg env n idx seen ff fd vis evs h1]
        exact hle

/-- Every cursor value at which the loop body runs lies between the pass's
starting cursor and `END_INDEX` (or was already in the accumulator). -/
lemma scanLoopAux_visited (cfg : Config) (env : Int → String → FileEnv) :
    ∀ (n : Nat) (idx : Int) (seen : List String) (ff fd : Nat)
      (vis : List Int) (evs : List Event) (i : Int),
      i ∈ (scanLoopAux cfg env n idx seen ff fd vis evs).visited →
      i ∈ vis ∨ (idx ≤ i ∧ i ≤ cfg.END_INDEX) := by
  intro n
  induction n with
  | zero =>
      intro idx seen ff fd vis evs i hi
      rw [scanLoopAux_zero] at hi
      exact Or.inl hi
  | succ n ih =>
      intro idx seen ff fd vis evs i hi
      by_cases h1 : idx ≤ cfg.END_INDEX
      · by_cases h2 : cfg.END_INDEX < idx + 1
        · rw [scanLoopAux_succ_wrap cfg env n idx seen ff fd vis evs h1 h2] at hi
          simp only [List.mem_append, List.mem_singleton] at hi
          rcases hi with hi | hi
          · exact Or.inl hi
          · exact Or.inr ⟨le_of_eq hi.symm, hi ▸ h1⟩
        · rw [scanLoopAux_succ_step cfg env n idx seen ff fd vis evs h1 h2] at hi
          rcases ih (idx + 1) _ _ _ _ _ i hi with hv | hv
          · simp only [List.mem_append, List.mem_singleton] at hv
            rcases hv with hv | hv
            · exact Or.inl hv
            · exact Or.inr ⟨le_of_eq hv.symm, hv ▸ h1⟩
          · exact Or.inr ⟨by omega, hv.2⟩
      · rw [scanLoopAux_succ_done cfg env n idx seen ff fd vis evs h1] at hi
        exact Or.inl hi

/-- Final cursor of a pass run with sufficient fuel: `START_INDEX` whenever
the loop body ran at all (the loop always exits through the wrap-and-break
branch), the unchanged starting value otherwise. -/
lemma scanLoopAux_cursor (cfg : Config) (env : Int → String → FileEnv) :
    ∀ (n : Nat) (idx : Int) (seen : List String) (ff fd : Nat)
      (vis : List Int) (evs : List Event),
      (cfg.END_INDEX + 1 - idx).toNat ≤ n →
      (scanLoopAux cfg env n idx seen ff fd vis evs).cursor =
        if idx ≤ cfg.END_INDEX then cfg.START_INDEX else idx := by
  intro n
  induction n with
  | zero =>
      intro idx seen ff fd vis evs hn
      have h1 : ¬ idx ≤ cfg.END_INDEX := by omega
      rw [scanLoopAux_zero, if_neg h1]
  | succ n ih =>
      intro idx seen ff fd vis evs hn
      by_cases h1 : idx ≤ cfg.END_INDEX
      · by_cases h2 : cfg.END_INDEX < idx + 1
        · rw [scanLoopAux_succ_wrap cfg env n idx seen ff fd vis evs h1 h2,
            if_pos h1]
        · rw [scanLoopAux_succ_step cfg env n idx seen ff fd vis evs h1 h2,
            ih (idx + 1) _ _ _ _ _ (by omega), if_pos (by omega), if_pos h1]
      · rw [scanLoopAux_succ_done cfg env n idx seen ff fd vis evs h1,
          if_neg h1]

/-- Number of loop-body iterations of a pass run with sufficient fuel:
exactly the size of the remaining index range. -/
lemma scanLoopAux_len (cfg : Config) (env : Int → String → FileEnv) :
    ∀ (n : Nat) (idx : Int) (seen : List String) (ff fd : Nat)
      (vis : List Int) (evs : List Event),
      (cfg.END_INDEX + 1 - idx).toNat ≤ n →
      (scanLoopAux cfg env n idx seen ff fd vis evs).visited.length =
        vis.length + (cfg.END_INDEX + 1 - idx).toNat := by
  intro n
  induction n with
  | zero =>
      intro idx seen ff fd vis evs hn
      rw [scanLoopAux_zero]
      simp only
      omega
  | succ n ih =>
      intro idx seen ff fd vis evs hn
      by_cases h1 : idx ≤ cfg.END_INDEX
      · by_cases h2 : cfg.END_INDEX < idx + 1
        · rw [scanLoopAux_succ_wrap cfg env n idx seen ff fd vis evs h1 h2]
          simp only [List.length_append, List.length_singleton]
          omega
        · rw [scanLoopAux_succ_step cfg env n idx seen ff fd vis evs h1 h2,
            ih (idx + 1) _ _ _ _ _ (by omega)]
          simp only [List.length_append, List.length_singleton]
          omega
      · rw [scanLoopAux_succ_done cfg env n idx seen ff fd vis evs h1]
        simp only
        omega

/-- Cumulative effect of iterated `update_stats` from an arbitrary starting
reporter: counters add the component sums, the check counter adds the
number of recordings. -/
lemma record_all_spec (l : List (Nat × Nat)) :
    ∀ r : StatusReporter,
      (record_all r l).files_found = r.files_found + (l.map Prod.fst).sum ∧
      (record_all r l).files_downloaded = r.files_downloaded + (l.map Prod.snd).sum ∧
      (record_all r l).checks_performed = r.checks_performed + l.length := by
  induction l with
  | nil =>
      intro r
      simp [record_all]
  | cons p rest ih =>
      intro r
      rcases p with ⟨f, d⟩
      obtain ⟨h1, h2, h3⟩ := ih (update_stats r f d)
      simp only [record_all, List.map_cons, List.sum_cons, List.length_cons]
      rw [h1, h2, h3]
      simp only [update_stats]
      refine ⟨by omega, by omega, by omega⟩

/-- Unfolding equation: collision loop out of fuel. -/
lemma resolve_path_zero (dir : List String) (base ext path : String)
    (counter : Nat) :
    resolve_path dir base ext path counter 0 = none := rfl

/-- Unfolding equation: one collision-loop step. -/
lemma resolve_path_succ (dir : List String) (base ext path : String)
    (counter n : Nat) :
    resolve_path dir base ext path counter (n + 1) =
      if path ∈ dir then
        resolve_path dir base ext (candName base ext counter) (counter + 1) n
      else some path := rfl

/-- Shifting the candidate sequence by one step of the collision loop. -/
lemma candAt_shift (base ext path : String) (counter j : Nat) :
    candAt base ext (candName base ext counter) (counter + 1) j =
      candAt base ext path counter (j + 1) := by
  cases j with
  | zero => simp [candAt]
  | succ k =>
      show candName base ext (counter + 1 + k) = candName base ext (counter + (k + 1))
      have h : counter + 1 + k = counter + (k + 1) := by omega
      rw [h]

/-- Specification of the collision loop: a returned path is free (never
overwrites an existing file) and is the first free entry of the candidate
sequence — every earlier candidate was occupied. -/
lemma resolve_path_spec (dir : List String) (base ext : String) :
    ∀ (fuel : Nat) (path : String) (counter : Nat) (p : String),
      resolve_path dir base ext path counter fuel = some p →
      p ∉ dir ∧ ∃ j, p = candAt base ext path counter j ∧
        ∀ i, i < j → candAt base ext path counter i ∈ dir := by
  intro fuel
  induction fuel with
  | zero =>
      intro path counter p h
      rw [resolve_path_zero] at h
      exact absurd h (by simp)
  | succ n ih =>
      intro path counter p h
      rw [resolve_path_succ] at h
      by_cases hm : path ∈ dir
      · rw [if_pos hm] at h
        obtain ⟨hnot, j, hj, hall⟩ := ih (candName base ext counter) (counter + 1) p h
        refine ⟨hnot, j + 1, ?_, ?_⟩
        · rw [hj, candAt_shift base ext path counter j]
        · intro i hi
          cases i with
          | zero => exact hm
          | succ k =>
              have hk := hall k (by omega)
              rw [candAt_shift base ext path counter k] at hk
              exact hk
      · rw [if_neg hm] at h
        have hp : path = p := by
          injection h
        subst hp
        exact ⟨hm, 0, rfl, fun i hi => absurd hi (Nat.not_lt_zero i)⟩

/-! ## Claims -/

/-- C1 counterexample: `validate_config` accepts START_INDEX = 5,
END_INDEX = 6, but `FileMonitor.__init__` sets the cursor to the literal 0,
so the very first scan pass after construction performs a candidate check
reading cursor value 0, which lies outside [START_INDEX, END_INDEX]. -/
theorem claimC1_counterexample :
    0 ∈ (scanLoop cfgC1 envNone FileMonitor.init.current_index
        FileMonitor.init.found_files).visited ∧
      ¬ (cfgC1.START_INDEX ≤ 0) := by
  decide

/-- C1 amended: the cursor read at every candidate check of a pass lies
between the pass's starting cursor and END_INDEX, so it stays inside
[START_INDEX, END_INDEX] for every pass that starts at or above
START_INDEX (all passes after the first wrap, and every pass when
START_INDEX ≤ 0); and whenever the pass runs at all, the increment past
END_INDEX resets the cursor exactly to START_INDEX. Only the very first
pass can read values below START_INDEX, because the constructor sets the
cursor to 0 rather than START_INDEX. -/
theorem claimC1_theorem (cfg : Config) (env : Int → String → FileEnv)
    (idx : Int) (seen : List String) (h : cfg.START_INDEX ≤ idx) :
    (∀ i ∈ (scanLoop cfg env idx seen).visited,
        cfg.START_INDEX ≤ i ∧ i ≤ cfg.END_INDEX) ∧
      (idx ≤ cfg.END_INDEX →
        (scanLoop cfg env idx seen).cursor = cfg.START_INDEX) := by
  constructor
  · intro i hi
    rcases scanLoopAux_visited cfg env ((cfg.END_INDEX + 1 - idx).toNat)
        idx seen 0 0 [] [] i hi with hv | hv
    · exact absurd hv (by simp)
    · exact ⟨le_trans h hv.1, hv.2⟩
  · intro hle
    rw [scanLoop, scanLoopAux_cursor cfg env _ idx seen 0 0 [] [] (le_refl _),
      if_pos hle]

/-- C1 witness: at the concrete configuration with START_INDEX = 0 and
END_INDEX = 2, a pass starting at 0 visits only in-range cursor values
(index 1 in particular) and wraps the cursor exactly to START_INDEX. -/
theorem claimC1_witness :
    (cfgC7.START_INDEX ≤ 1 ∧ 1 ≤ cfgC7.END_INDEX) ∧
      (scanLoop cfgC7 envC7 0 []).cursor = cfgC7.START_INDEX :=
  ⟨(claimC1_theorem cfgC7 envC7 0 [] (by decide)).1 1 (by decide),
   (claimC1_theorem cfgC7 envC7 0 [] (by decide)).2 (by decide)⟩

/-- C2: a URL already in the seen-set makes `process_file` return
`(False, False)` immediately, with the seen-set unchanged and zero network
calls (no existence probe, no download); and the seen-set only grows across
whole scan passes, so the skip persists for every later pass of the process
lifetime. -/
theorem claimC2_theorem (base_url : String) (seen : List String) (index : Int)
    (ext : String) (env : FileEnv)
    (h : mkUrl base_url index ext ∈ seen) :
    process_file base_url seen index ext env =
      { found := false, downloaded := false, seen := seen, events := [] } ∧
    ∀ (cfg : Config) (env2 : Int → String → FileEnv) (m : FileMonitor),
      m.found_files ⊆ (check_new_files cfg env2 m).found_files := by
  constructor
  · simp [process_file, h]
  · intro cfg env2 m
    simp only [check_new_files]
    exact scanLoopAux_seen_mono cfg env2 _ m.current_index m.found_files 0 0 [] []

/-- C2 witness: with `B/file_1.txt` already seen, processing index 1 with
extension `txt` returns `(False, False)` with no events; and a concrete
pass only grows the seen-set. -/
theorem claimC2_witness :
    process_file "B" ["B/file_1.txt"] 1 "txt"
        { probe := Except.ok { status := 200, content_length := some 3 },
          download := Except.ok true } =
      { found := false, downloaded := false, seen := ["B/file_1.txt"],
        events := [] } ∧
    FileMonitor.init.found_files ⊆
      (check_new_files cfgC7 envC7 FileMonitor.init).found_files :=
  ⟨(claimC2_theorem ("B") ["B/file_1.txt"] 1 "txt"
      { probe := Except.ok { status := 200, content_length := some 3 },
        download := Except.ok true } (by decide)).1,
   (claimC2_theorem ("B") ["B/file_1.txt"] 1 "txt"
      { probe := Except.ok { status := 200, content_length := some 3 },
        download := Except.ok true } (by decide)).2 cfgC7 envC7 FileMonitor.init⟩

/-- C3: an existing candidate whose download fails yields
`(found=True, downloaded=False)` with the seen-set unchanged, so the
candidate stays eligible for retry; and in full generality the seen-set
changes only by gaining the URL, which happens exactly when the download
returns success. -/
theorem claimC3_theorem (base_url : String) (seen : List String) (index : Int)
    (ext : String) (env : FileEnv)
    (h1 : mkUrl base_url index ext ∉ seen)
    (h2 : (check_file_exists env.probe).1 = true)
    (h3 : env.download = Except.ok false) :
    process_file base_url seen index ext env =
      { found := true, downloaded := false, seen := seen,
        events := [Event.probe (mkUrl base_url index ext),
                   Event.download (mkUrl base_url index ext)] } ∧
    ∀ env2 : FileEnv,
      (process_file base_url seen index ext env2).seen = seen ∨
      ((process_file base_url seen index ext env2).seen =
          mkUrl base_url index ext :: seen ∧
        env2.download = Except.ok true ∧
        (process_file base_url seen index ext env2).found = true ∧
        (process_file base_url seen index ext env2).downloaded = true) := by
  constructor
  · simp [process_file, h1, h2, h3]
  · intro env2
    rcases process_file_spec base_url seen index ext env2 with hc | hc | hc
    · exact Or.inl hc.2.2
    · exact Or.inl hc.2.2
    · exact Or.inr ⟨hc.2.2.1, hc.2.2.2, hc.1, hc.2.1⟩

/-- C3 witness: concrete candidate at index 2 that exists (status 200) but
whose download returns failure: `(True, False)`, seen-set unchanged. -/
theorem claimC3_witness :
    process_file "B" [] 2 "txt"
        { probe := Except.ok { status := 200, content_length := some 9 },
          download := Except.ok false } =
      { found := true, downloaded := false, seen := [],
        events := [Event.probe "B/file_2.txt",
                   Event.download "B/file_2.txt"] } ∧
    ((process_file "B" [] 2 "txt"
        { probe := Except.ok { status := 200, content_length := some 9 },
          download := Except.ok false }).seen = [] ∨
      ((process_file "B" [] 2 "txt"
          { probe := Except.ok { status := 200, content_length := some 9 },
            download := Except.ok false }).seen = "B/file_2.txt" :: [] ∧
        ({ probe := Except.ok { status := 200, content_length := some 9 },
           download := Except.ok false } : FileEnv).download = Except.ok true ∧
        (process_file "B" [] 2 "txt"
          { probe := Except.ok { status := 200, content_length := some 9 },
            download := Except.ok false }).found = true ∧
        (process_file "B" [] 2 "txt"
          { probe := Except.ok { status := 200, content_length := some 9 },
            download := Except.ok false }).downloaded = true)) :=
  ⟨(claimC3_theorem ("B") [] 2 "txt"
      { probe := Except.ok { status := 200, content_length := some 9 },
        download := Except.ok false } (by decide) (by decide) rfl).1,
   (claimC3_theorem ("B") [] 2 "txt"
      { probe := Except.ok { status := 200, content_length := some 9 },
        download := Except.ok false } (by decide) (by decide) rfl).2
     { probe := Except.ok { status := 200, content_length := some 9 },
       download := Except.ok false }⟩

/-- C4: n applications of `update_stats` on a fresh `StatusReporter` leave
`files_found` equal to the sum of the found counts, `files_downloaded`
equal to the sum of the downloaded counts, and `checks_performed` equal to
n. -/
theorem claimC4_theorem (l : List (Nat × Nat)) :
    (record_all StatusReporter.init l).files_found = (l.map Prod.fst).sum ∧
    (record_all StatusReporter.init l).files_downloaded = (l.map Prod.snd).sum ∧
    (record_all StatusReporter.init l).checks_performed = l.length := by
  obtain ⟨h1, h2, h3⟩ := record_all_spec l StatusReporter.init
  rw [h1, h2, h3]
  simp [StatusReporter.init]

/-- C5: the collision loop of `download_file` appends `_1`, `_2`, ... before
the extension, returns the first candidate whose path does not exist, and
never overwrites (the resolved path is not in the directory); concretely,
with `file_5.txt` present a second download of the same logical file is
written as `file_5_1.txt` and a third as `file_5_2.txt`. -/
theorem claimC5_theorem :
    (∀ (dir : List String) (base ext : String) (fuel : Nat) (path : String)
        (counter : Nat) (p : String),
        resolve_path dir base ext path counter fuel = some p →
        p ∉ dir ∧ ∃ j, p = candAt base ext path counter j ∧
          ∀ i, i < j → candAt base ext path counter i ∈ dir) ∧
    download_file ["file_5.txt"] "file_5.txt"
        (Except.ok { status := 200, content_length := some 1048576 }) =
      (true, ["file_5_1.txt", "file_5.txt"]) ∧
    download_file ["file_5_1.txt", "file_5.txt"] "file_5.txt"
        (Except.ok { status := 200, content_length := some 1048576 }) =
      (true, ["file_5_2.txt", "file_5_1.txt", "file_5.txt"]) := by
  refine ⟨?_, by decide, by decide⟩
  intro dir base ext fuel path counter p h
  exact resolve_path_spec dir base ext fuel path counter p h

/-- C5 witness: on the concrete directory containing only `file_5.txt`, the
resolved path `file_5_1.txt` does not overwrite any existing file. -/
theorem claimC5_witness : "file_5_1.txt" ∉ ["file_5.txt"] :=
  (claimC5_theorem.1 ["file_5.txt"] "file_5" ".txt" 2 "file_5.txt" 1
    "file_5_1.txt" (by decide)).1

/-- C6: the existence probe is a total function of the probe outcome (it
never raises to its caller): status 200 yields `(True, content_length or
0)`, any other status yields `(False, 0)`, and a transport failure yields
`(False, 0)` with the error logged. -/
theorem claimC6_theorem (resp : Except Unit HttpResponse) :
    (∀ r : HttpResponse, resp = Except.ok r →
        (r.status = 200 →
          check_file_exists resp = (true, r.content_length.getD 0)) ∧
        (r.status ≠ 200 → check_file_exists resp = (false, 0))) ∧
    (∀ e : Unit, resp = Except.error e →
        check_file_exists resp = (false, 0) ∧
        check_file_exists_logs_error resp = true) := by
  constructor
  · rintro r rfl
    constructor
    · intro hs
      simp [check_file_exists, hs]
    · intro hs
      simp [check_file_exists, hs]
  · rintro e rfl
    exact ⟨rfl, rfl⟩

/-- C6 witness: a 200 response with content-length 7 probes as
`(True, 7)`; a transport error probes as `(False, 0)` and logs. -/
theorem claimC6_witness :
    check_file_exists (Except.ok { status := 200, content_length := some 7 }) =
        (true, 7) ∧
      check_file_exists (Except.error ()) = (false, 0) ∧
      check_file_exists_logs_error (Except.error ()) = true :=
  ⟨((claimC6_theorem (Except.ok { status := 200, content_length := some 7 })).1
      { status := 200, content_length := some 7 } rfl).1 rfl,
   ((claimC6_theorem (Except.error ())).2 () rfl).1,
   ((claimC6_theorem (Except.error ())).2 () rfl).2⟩

/-- C7: with start 0, end 2, extensions `["txt"]`, and a remote serving only
`file_1.txt` (status 200, 1048576 bytes), one scan pass from a fresh
monitor probes indices 0 (not found), 1 (found and downloaded), 2 (not
found), wraps the cursor to 0, and leaves files_found = 1,
files_downloaded = 1, checks_performed = 1, with the reporter's mirrored
current_index equal to 0. -/
theorem claimC7_theorem :
    check_new_files cfgC7 envC7 FileMonitor.init =
      { current_index := 0, found_files := ["B/file_1.txt"],
        status_reporter :=
          { files_found := 1, files_downloaded := 1,
            last_check_time := some (), current_index := 0,
            checks_performed := 1 } } ∧
    (scanLoop cfgC7 envC7 0 []).visited = [0, 1, 2] ∧
    (scanLoop cfgC7 envC7 0 []).events =
      [Event.probe "B/file_0.txt", Event.probe "B/file_1.txt",
       Event.download "B/file_1.txt", Event.probe "B/file_2.txt"] := by
  decide

/-- C8: a scan pass always terminates after exactly
`(END_INDEX + 1 - c).toNat` loop-body iterations from starting cursor `c`
(zero when `c > END_INDEX`, in which case the cursor is untouched); when
the body runs, the pass ends by resetting the cursor to START_INDEX without
continuing past the wraparound; and `update_stats` runs exactly once per
invocation (the check counter increments by exactly one). -/
theorem claimC8_theorem (cfg : Config) (env : Int → String → FileEnv)
    (m : FileMonitor) :
    (m.current_index ≤ cfg.END_INDEX →
      (scanLoop cfg env m.current_index m.found_files).visited.length =
          (cfg.END_INDEX + 1 - m.current_index).toNat ∧
        (scanLoop cfg env m.current_index m.found_files).cursor =
          cfg.START_INDEX) ∧
    (cfg.END_INDEX < m.current_index →
      (scanLoop cfg env m.current_index m.found_files).visited.length = 0 ∧
        (scanLoop cfg env m.current_index m.found_files).cursor =
          m.current_index) ∧
    (check_new_files cfg env m).status_reporter.checks_performed =
      m.status_reporter.checks_performed + 1 := by
  refine ⟨?_, ?_, ?_⟩
  · intro h
    constructor
    · have hl := scanLoopAux_len cfg env ((cfg.END_INDEX + 1 - m.current_index).toNat)
        m.current_index m.found_files 0 0 [] [] (le_refl _)
      simpa using hl
    · rw [scanLoop, scanLoopAux_cursor cfg env _ m.current_index m.found_files
        0 0 [] [] (le_refl _), if_pos h]
  · intro h
    constructor
    · rw [scanLoop]
      have hl := scanLoopAux_len cfg env ((cfg.END_INDEX + 1 - m.current_index).toNat)
        m.current_index m.found_files 0 0 [] [] (le_refl _)
      simp only [List.length_nil] at hl
      omega
    · rw [scanLoop, scanLoopAux_cursor cfg env _ m.current_index m.found_files
        0 0 [] [] (le_refl _), if_neg (by omega)]
  · simp [check_new_files, update_stats]

/-- C8 witness: from a fresh monitor under the concrete configuration with
END_INDEX = 2, the pass runs 3 iterations, wraps to START_INDEX, and
increments the check counter exactly once. -/
theorem claimC8_witness :
    ((scanLoop cfgC7 envC7 FileMonitor.init.current_index
          FileMonitor.init.found_files).visited.length =
        (cfgC7.END_INDEX + 1 - FileMonitor.init.current_index).toNat ∧
      (scanLoop cfgC7 envC7 FileMonitor.init.current_index
          FileMonitor.init.found_files).cursor = cfgC7.START_INDEX) ∧
    (check_new_files cfgC7 envC7 FileMonitor.init).status_reporter.checks_performed =
      FileMonitor.init.status_reporter.checks_performed + 1 :=
  ⟨(claimC8_theorem cfgC7 envC7 FileMonitor.init).1 (by decide),
   (claimC8_theorem cfgC7 envC7 FileMonitor.init).2.2⟩

/-- C9: with no recipient configured (CHAT_ID unset or zero), `send` logs an
error and performs zero network calls; with a recipient configured it
performs exactly one post and catches any transport failure, logging it
instead of raising (the embedding is a total function). -/
theorem claimC9_theorem (chat_id : Int) (transport : Except Unit Unit) :
    (chat_id = 0 →
      send_telegram_message chat_id transport =
        { network_calls := 0, error_logged := true }) ∧
    (chat_id ≠ 0 →
      (send_telegram_message chat_id transport).network_calls = 1 ∧
      ∀ e : Unit, transport = Except.error e →
        (send_telegram_message chat_id transport).error_logged = true) := by
  constructor
  · intro h
    simp [send_telegram_message, h]
  · intro h
    constructor
    · cases transport <;> simp [send_telegram_message, h]
    · rintro e rfl
      simp [send_telegram_message, h]

/-- C9 witness: chat id 0 sends nothing and logs; chat id 7 posts once even
when the transport fails, and logs the failure. -/
theorem claimC9_witness :
    send_telegram_message 0 (Except.ok ()) =
        { network_calls := 0, error_logged := true } ∧
      (send_telegram_message 7 (Except.error ())).network_calls = 1 ∧
      (send_telegram_message 7 (Except.error ())).error_logged = true :=
  ⟨(claimC9_theorem 0 (Except.ok ())).1 rfl,
   ((claimC9_theorem 7 (Except.error ())).2 (by decide)).1,
   ((claimC9_theorem 7 (Except.error ())).2 (by decide)).2 () rfl⟩

/-- C10: `process_file` never returns `(found=False, downloaded=True)`; an
unexpected exception inside it (raised by the invoked download) yields
`(False, False)`; each pass's downloaded count is at most its found count;
and the cumulative reporter invariant files_downloaded ≤ files_found is
preserved by every `check_new_files` invocation. -/
theorem claimC10_theorem (base_url : String) (seen : List String)
    (index : Int) (ext : String) (env : FileEnv) (cfg : Config)
    (env2 : Int → String → FileEnv) (m : FileMonitor)
    (h : m.status_reporter.files_downloaded ≤ m.status_reporter.files_found) :
    ¬ ((process_file base_url seen index ext env).found = false ∧
        (process_file base_url seen index ext env).downloaded = true) ∧
    ((check_file_exists env.probe).1 = true →
      mkUrl base_url index ext ∉ seen →
      ∀ e : Unit, env.download = Except.error e →
        (process_file base_url seen index ext env).found = false ∧
        (process_file base_url seen index ext env).downloaded = false) ∧
    (scanLoop cfg env2 m.current_index m.found_files).downloaded ≤
      (scanLoop cfg env2 m.current_index m.found_files).found ∧
    (check_new_files cfg env2 m).status_reporter.files_downloaded ≤
      (check_new_files cfg env2 m).status_reporter.files_found := by
  have hcount : (scanLoop cfg env2 m.current_index m.found_files).downloaded ≤
      (scanLoop cfg env2 m.current_index m.found_files).found :=
    scanLoopAux_counts cfg env2
      ((cfg.END_INDEX + 1 - m.current_index).toNat)
      m.current_index m.found_files 0 0 [] [] (le_refl 0)
  refine ⟨?_, ?_, hcount, ?_⟩
  · rcases process_file_spec base_url seen index ext env with hc | hc | hc
    · intro hcontra
      rw [hc.2.1] at hcontra
      exact absurd hcontra.2 (by simp)
    · intro hcontra
      rw [hc.2.1] at hcontra
      exact absurd hcontra.2 (by simp)
    · intro hcontra
      rw [hc.1] at hcontra
      exact absurd hcontra.1 (by simp)
  · intro hp hmem e hd
    constructor <;> simp [process_file, hp, hmem, hd]
  · simp only [check_new_files, update_stats]
    omega

/-- C10 witness: at a concrete candidate and a concrete pass from a fresh
monitor, `process_file` does not return `(False, True)`, the pass's
downloaded count is at most its found count, and the cumulative reporter
invariant holds after the pass. -/
theorem claimC10_witness :
    ¬ ((process_file "B" [] 0 "txt" (envNone 0 "txt")).found = false ∧
        (process_file "B" [] 0 "txt" (envNone 0 "txt")).downloaded = true) ∧
    (scanLoop cfgC7 envC7 FileMonitor.init.current_index
        FileMonitor.init.found_files).downloaded ≤
      (scanLoop cfgC7 envC7 FileMonitor.init.current_index
        FileMonitor.init.found_files).found ∧
    (check_new_files cfgC7 envC7 FileMonitor.init).status_reporter.files_downloaded ≤
      (check_new_files cfgC7 envC7 FileMonitor.init).status_reporter.files_found :=
  ⟨(claimC10_theorem ("B") [] 0 "txt" (envNone 0 "txt") cfgC7 envC7
      FileMonitor.init (by decide)).1,
   (claimC10_theorem ("B") [] 0 "txt" (envNone 0 "txt") cfgC7 envC7
      FileMonitor.init (by decide)).2.2.1,
   (claimC10_theorem ("B") [] 0 "txt" (envNone 0 "txt") cfgC7 envC7
      FileMonitor.init (by decide)).2.2.2⟩
